import Mathlib

/-!
Verification development for the ssr-item repository's resilience-and-caching
layer: the circuit breaker, the two-tier cache manager, the fixed-window rate
limiter, and the render-strategy decision engine.

Each JavaScript class is shallowly embedded as a Lean structure with explicit
state passing; time (JS `Date.now()`, milliseconds) is passed as a `Nat`
argument; fallible external effects (the wrapped function of the breaker, the
Redis transport) are supplied as `Except`-valued oracle inputs, so every
definition is an executable total function.
-/

namespace SSRItem

/-! ## Circuit breaker (class `CircuitBreaker`)

Embeds the breaker state machine: `CircuitState`, the mutable fields of the
class, and the methods `execute`, `onSuccess`, `onFailure`, `toClosed`,
`toOpen`, `toHalfOpen`.  Logging, metric emission and alerting are side
effects with no influence on the breaker state and are not modelled. -/

inductive CircuitState where
  | CLOSED
  | OPEN
  | HALF_OPEN
deriving DecidableEq, Repr

structure Breaker where
  failureThreshold : Nat
  successThreshold : Nat
  timeout : Nat
  state : CircuitState
  failureCount : Nat
  successCount : Nat
  nextAttempt : Nat
  lastStateChange : Nat
  totalRequests : Nat
  successfulRequests : Nat
  failedRequests : Nat
  rejectedRequests : Nat
  lastFailureTime : Option Nat
  lastSuccessTime : Option Nat
deriving DecidableEq, Repr

/-- A fresh breaker as built by the constructor with the default options
(`failureThreshold 5`, `successThreshold 2`, `timeout 60000`). -/
def Breaker.fresh (now : Nat) : Breaker where
  failureThreshold := 5
  successThreshold := 2
  timeout := 60000
  state := .CLOSED
  failureCount := 0
  successCount := 0
  nextAttempt := now
  lastStateChange := now
  totalRequests := 0
  successfulRequests := 0
  failedRequests := 0
  rejectedRequests := 0
  lastFailureTime := none
  lastSuccessTime := none

def Breaker.toClosed (b : Breaker) (now : Nat) : Breaker :=
  { b with state := .CLOSED, failureCount := 0, successCount := 0,
           lastStateChange := now }

def Breaker.toOpen (b : Breaker) (now : Nat) : Breaker :=
  { b with state := .OPEN, nextAttempt := now + b.timeout,
           lastStateChange := now }

def Breaker.toHalfOpen (b : Breaker) (now : Nat) : Breaker :=
  { b with state := .HALF_OPEN, successCount := 0, lastStateChange := now }

def Breaker.onSuccess (b : Breaker) (now : Nat) : Breaker :=
  let b := { b with successfulRequests := b.successfulRequests + 1,
                    lastSuccessTime := some now }
  if b.state = .HALF_OPEN then
    let b := { b with successCount := b.successCount + 1 }
    if b.successCount ≥ b.successThreshold then b.toClosed now else b
  else
    { b with failureCount := 0 }

def Breaker.onFailure (b : Breaker) (now : Nat) : Breaker :=
  let b := { b with failedRequests := b.failedRequests + 1,
                    lastFailureTime := some now,
                    failureCount := b.failureCount + 1 }
  if b.state = .HALF_OPEN then b.toOpen now
  else if b.failureCount ≥ b.failureThreshold then b.toOpen now
  else b

/-- Outcome of one `execute(fn)` call: the promise resolves (`success`), the
wrapped function threw and the error is rethrown (`failure`), or the call was
rejected without invoking `fn` (`rejected`, carrying `error.code`). -/
inductive ExecOutcome where
  | success
  | failure
  | rejected (code : String)
deriving DecidableEq, Repr

structure ExecOut where
  breaker : Breaker
  outcome : ExecOutcome
  fnInvoked : Bool
deriving DecidableEq, Repr

/-- The `try { await fn() ... } catch` part of `execute`: `fn` has been
invoked; its result is the `fnResult` oracle. -/
def Breaker.attemptCall (b : Breaker) (now : Nat) (fnResult : Except Unit Unit) :
    ExecOut :=
  match fnResult with
  | .ok _ => ⟨b.onSuccess now, .success, true⟩
  | .error _ => ⟨b.onFailure now, .failure, true⟩

def Breaker.execute (b : Breaker) (now : Nat) (fnResult : Except Unit Unit) :
    ExecOut :=
  let b := { b with totalRequests := b.totalRequests + 1 }
  if b.state = .OPEN then
    if now < b.nextAttempt then
      ⟨{ b with rejectedRequests := b.rejectedRequests + 1 },
       .rejected "CIRCUIT_BREAKER_OPEN", false⟩
    else
      (b.toHalfOpen now).attemptCall now fnResult
  else
    b.attemptCall now fnResult

/-! ## Two-tier cache manager (class `CacheManager`, src/server/cache.js)

L1 is the `lru-cache` instance (`max: 1000`, default `ttl` 5 minutes,
`updateAgeOnGet: true`); it is embedded as an association list of entries
carrying the insertion time and per-entry ttl, with the library's documented
`get`/`set`/staleness behaviour (an entry is stale once its age exceeds its
ttl; `ttl = 0` means no expiry; a `get` refreshes the entry's age).  Capacity
eviction is not exercised by any claim and is not modelled.  L2 (Redis) calls
are supplied as `Except`-valued oracles; `redisConfigured` models
`this.redis` being non-null. -/

structure L1Entry where
  key : String
  value : String
  start : Nat
  ttlMs : Nat
deriving DecidableEq, Repr

/-- An entry is live (not stale) at `now`: `lru-cache` treats an entry as
stale when its age strictly exceeds its ttl; `ttl = 0` disables expiry. -/
def L1Entry.live (e : L1Entry) (now : Nat) : Bool :=
  e.ttlMs = 0 || now ≤ e.start + e.ttlMs

def l1Find (m : List L1Entry) (k : String) : Option L1Entry :=
  m.find? (fun e => e.key = k)

/-- `memoryCache.set(key, value, {ttl})`: stores the entry, replacing any
previous entry for the key. -/
def l1Set (m : List L1Entry) (k v : String) (now ttlMs : Nat) : List L1Entry :=
  ⟨k, v, now, ttlMs⟩ :: m.filter (fun e => ¬ e.key = k)

/-- `memoryCache.get(key)`: returns the value if present and live (refreshing
its age, `updateAgeOnGet: true`), deletes it lazily if stale. -/
def l1Get (m : List L1Entry) (now : Nat) (k : String) :
    Option String × List L1Entry :=
  match l1Find m k with
  | none => (none, m)
  | some e =>
    if e.live now then
      (some e.value, l1Set m k e.value now e.ttlMs)
    else
      (none, m.filter (fun x => ¬ x.key = k))

structure CMStats where
  l1Hits : Nat
  l2Hits : Nat
  misses : Nat
  sets : Nat
deriving DecidableEq, Repr

structure CMState where
  l1 : List L1Entry
  redisConfigured : Bool
  stats : CMStats
  errorLog : List String
deriving DecidableEq, Repr

/-- The constructor's default L1 ttl: `1000 * 60 * 5` ms. -/
def l1DefaultTtlMs : Nat := 300000

/-- JavaScript truthiness of a possibly-absent string value: `undefined`
and the empty string are falsy. -/
def jsTruthy : Option String → Bool
  | none => false
  | some s => ¬ s = ""

/-- `CacheManager.get(key)`.  `l2Res` is the Redis `get` oracle: a thrown
transport error, a null reply, or a string value. -/
def cmGet (st : CMState) (now : Nat) (k : String)
    (l2Res : Except String (Option String)) : CMState × Option String :=
  let (mv, l1a) := l1Get st.l1 now k
  if jsTruthy mv then
    ({ st with l1 := l1a,
               stats := { st.stats with l1Hits := st.stats.l1Hits + 1 } }, mv)
  else
    let st := { st with l1 := l1a }
    if st.redisConfigured then
      match l2Res with
      | .ok (some s) =>
        if s = "" then
          ({ st with stats := { st.stats with misses := st.stats.misses + 1 } },
           none)
        else
          -- backfill: `this.memoryCache.set(key, redisValue)` (default ttl)
          ({ st with l1 := l1Set st.l1 k s now l1DefaultTtlMs,
                     stats := { st.stats with l2Hits := st.stats.l2Hits + 1 } },
           some s)
      | .ok none =>
        ({ st with stats := { st.stats with misses := st.stats.misses + 1 } },
         none)
      | .error e =>
        ({ st with errorLog := st.errorLog ++ ["Redis read failed: " ++ e],
                   stats := { st.stats with misses := st.stats.misses + 1 } },
         none)
    else
      ({ st with stats := { st.stats with misses := st.stats.misses + 1 } },
       none)

/-- `CacheManager.set(key, value, ttl = 300)` (ttl in seconds).  `l2Res` is
the Redis `setex` oracle.  The function is total: no input makes it fail. -/
def cmSet (st : CMState) (now : Nat) (k v : String) (ttl : Nat)
    (l2Res : Except String Unit) : CMState :=
  let st := { st with stats := { st.stats with sets := st.stats.sets + 1 } }
  let st := { st with l1 := l1Set st.l1 k v now (ttl * 1000) }
  if st.redisConfigured then
    match l2Res with
    | .ok _ => st
    | .error e =>
      { st with errorLog := st.errorLog ++ ["Redis write failed: " ++ e] }
  else st

/-- The record returned by `CacheManager.getStats()`.  `hitRate` is reported
as a rational; the source formats it with `toFixed(2)` and a percent sign,
pure presentation on top of these numbers. -/
structure CMStatsReport where
  l1Hits : Nat
  l2Hits : Nat
  misses : Nat
  sets : Nat
  total : Nat
  hitRate : ℚ
  l1Size : Nat
  l1Count : Nat
deriving DecidableEq, Repr

def cmGetStats (st : CMState) : CMStatsReport :=
  let total := st.stats.l1Hits + st.stats.l2Hits + st.stats.misses
  { l1Hits := st.stats.l1Hits
    l2Hits := st.stats.l2Hits
    misses := st.stats.misses
    sets := st.stats.sets
    total := total
    hitRate := if total > 0 then
        ((st.stats.l1Hits + st.stats.l2Hits : ℚ) / total) * 100
      else 0
    l1Size := st.l1.length
    l1Count := st.l1.length }

/-! ## Fixed-window rate limiter (class `RateLimiter`, src/middleware/metrics.js)

`store` maps a key to `{count, resetTime}`; `check(key)` is the admission
test.  `remaining` is an `Int` because `this.max - record.count` is plain JS
subtraction. -/

structure RLRecord where
  count : Nat
  resetTime : Nat
deriving DecidableEq, Repr

structure RateLimiter where
  max : Nat
  window : Nat
  store : List (String × RLRecord)
deriving DecidableEq, Repr

structure RLResult where
  allowed : Bool
  remaining : Int
  retryAfter : Option Nat
deriving DecidableEq, Repr

def rlStoreSet (s : List (String × RLRecord)) (k : String) (r : RLRecord) :
    List (String × RLRecord) :=
  (k, r) :: s.filter (fun p => ¬ p.1 = k)

def rlFind (s : List (String × RLRecord)) (k : String) :
    Option (String × RLRecord) :=
  s.find? (fun p => p.1 = k)

/-- `RateLimiter.check(key)` at time `now` (ms).  `Math.ceil((resetTime -
now)/1000)` on the reject branch (where `now ≤ resetTime`) is
`(resetTime - now + 999) / 1000` in `Nat`. -/
def RateLimiter.check (rl : RateLimiter) (k : String) (now : Nat) :
    RateLimiter × RLResult :=
  let fresh : RateLimiter × RLResult :=
    ({ rl with store := rlStoreSet rl.store k ⟨1, now + rl.window⟩ },
     ⟨true, (rl.max : Int) - 1, none⟩)
  match rlFind rl.store k with
  | none => fresh
  | some (_, rec) =>
    if now > rec.resetTime then fresh
    else if rec.count ≥ rl.max then
      (rl, ⟨false, 0, some ((rec.resetTime - now + 999) / 1000)⟩)
    else
      ({ rl with store := rlStoreSet rl.store k ⟨rec.count + 1, rec.resetTime⟩ },
       ⟨true, (rl.max : Int) - (rec.count + 1 : Nat), none⟩)

/-! ## Strategy decision engine (src/api/precheck-enhanced.js)

`determineRenderStrategy` and `getFallbackStrategy` are pure; the enhanced
precheck endpoint `precheckItemEnhanced` carries its module-level circuit
breaker state explicitly and takes the cache lookup, the upstream API call
and the cache write as `Except`-valued oracles.  JS object fields absent on a
branch (`isHot`, `stockLevel`, `fallback` on some metadata objects) are
modelled by the falsy defaults `false` / `""`. -/

inductive RenderStrategy where
  | ssr
  | csr
  | streaming
deriving DecidableEq, Repr

structure CacheStrategy where
  enabled : Bool
  ttl : Nat
deriving DecidableEq, Repr

structure Signal where
  itemId : String
  isSeckill : Bool
  isHot : Bool
  stockLevel : String
deriving DecidableEq, Repr

structure DecisionMeta where
  itemId : String
  isSeckill : Bool
  isHot : Bool
  stockLevel : String
  fallback : Bool
  reason : String
deriving DecidableEq, Repr

structure Decision where
  renderStrategy : RenderStrategy
  cacheStrategy : CacheStrategy
  metadata : DecisionMeta
deriving DecidableEq, Repr

def determineRenderStrategy (s : Signal) : Decision :=
  if s.isSeckill then
    { renderStrategy := .csr
      cacheStrategy := { enabled := false, ttl := 0 }
      metadata := ⟨s.itemId, s.isSeckill, s.isHot, s.stockLevel, false,
                   "seckill item: CSR for realtime stock"⟩ }
  else if s.isHot && s.stockLevel = "low" then
    { renderStrategy := .streaming
      cacheStrategy := { enabled := true, ttl := 30 }
      metadata := ⟨s.itemId, s.isSeckill, s.isHot, s.stockLevel, false,
                   "hot low-stock item: streaming with short cache"⟩ }
  else if s.isHot then
    { renderStrategy := .ssr
      cacheStrategy := { enabled := true, ttl := 60 }
      metadata := ⟨s.itemId, s.isSeckill, s.isHot, s.stockLevel, false,
                   "hot item: SSR with short cache"⟩ }
  else
    { renderStrategy := .ssr
      cacheStrategy := { enabled := true, ttl := 300 }
      metadata := ⟨s.itemId, s.isSeckill, s.isHot, s.stockLevel, false,
                   "normal item: SSR with long cache"⟩ }

/-- JS `s.startsWith(pre)`, embedded over the character lists so that it
evaluates by kernel reduction. -/
def jsStartsWith (s pre : String) : Bool :=
  pre.toList.isPrefixOf s.toList

def getFallbackStrategy (itemId : String) : Decision :=
  if jsStartsWith itemId "SK" then
    { renderStrategy := .csr
      cacheStrategy := { enabled := false, ttl := 0 }
      metadata := ⟨itemId, true, false, "", true,
                   "precheck failed: degrade to CSR"⟩ }
  else
    { renderStrategy := .ssr
      cacheStrategy := { enabled := true, ttl := 180 }
      metadata := ⟨itemId, false, false, "", true,
                   "precheck failed: degrade to SSR"⟩ }

/-- The module-level breaker of precheck-enhanced.js
(`{failureCount, lastFailureTime, state}`); config is the literal
`CIRCUIT_BREAKER_CONFIG` (`failureThreshold 5`, `timeout 30000`). -/
structure PCBreaker where
  failureCount : Nat
  lastFailureTime : Nat
  state : CircuitState
deriving DecidableEq, Repr

/-- The `catch` block of `precheckItemEnhanced`: count the failure, open the
breaker at the threshold, and return the fallback decision. -/
def pcCatch (cb : PCBreaker) (itemId : String) (now : Nat) :
    PCBreaker × Decision :=
  let cb := { cb with failureCount := cb.failureCount + 1,
                      lastFailureTime := now }
  let cb := if cb.failureCount ≥ 5 then { cb with state := .OPEN } else cb
  (cb, getFallbackStrategy itemId)

/-- `precheckItemEnhanced(itemId)` at time `now`.  `cacheRes` is the
`cacheHelper.get` oracle (`.ok (some d)` = cached decision, `.ok none` =
cache miss, `.error` = thrown), `apiRes` the `callPrecheckAPI` oracle, and
`setRes` the `cacheHelper.set` oracle. -/
def precheckItemEnhanced (cb : PCBreaker) (itemId : String) (now : Nat)
    (cacheRes : Except String (Option Decision))
    (apiRes : Except String Signal)
    (setRes : Except String Unit) : PCBreaker × Decision :=
  if cb.state = .OPEN ∧ ¬ now - cb.lastFailureTime > 30000 then
    (cb, getFallbackStrategy itemId)
  else
    let cb := if cb.state = .OPEN then { cb with state := .HALF_OPEN } else cb
    match cacheRes with
    | .error _ => pcCatch cb itemId now
    | .ok (some d) => (cb, d)
    | .ok none =>
      match apiRes with
      | .error _ => pcCatch cb itemId now
      | .ok sig =>
        let strategy := determineRenderStrategy sig
        match setRes with
        | .error _ => pcCatch cb itemId now
        | .ok _ =>
          let cb := if cb.state = .HALF_OPEN then
              { cb with state := .CLOSED, failureCount := 0 }
            else cb
          (cb, strategy)

/-- Spec-side decision table of §4.6, written from the spec's words (priority
order, first match wins) to compare with `determineRenderStrategy`:
(render strategy, cache enabled, ttl seconds). -/
def specStrategyTable (s : Signal) : RenderStrategy × Bool × Nat :=
  if s.isSeckill then (.csr, false, 0)
  else if s.isHot && s.stockLevel = "low" then (.streaming, true, 30)
  else if s.isHot then (.ssr, true, 60)
  else (.ssr, true, 300)

/-- L2 hit as the source sees it: the Redis `get` returned a truthy string. -/
def l2Truthy : Except String (Option String) → Option String
  | .ok (some s) => if s = "" then none else some s
  | _ => none

/-- A breaker that has just been opened by 5 failures and moved to
`HALF_OPEN` after the cooldown: `failureCount` is still 5. -/
def c1Breaker : Breaker :=
  { Breaker.fresh 0 with state := .HALF_OPEN, failureCount := 5 }

/-- An open breaker whose cooldown ends at t = 50000. -/
def c3Breaker : Breaker :=
  { Breaker.fresh 0 with state := .OPEN, nextAttempt := 50000 }

/-- A fresh cache manager with Redis configured. -/
def c2Init : CMState := ⟨[], true, ⟨0, 0, 0, 0⟩, []⟩

/-- A fresh cache manager with Redis configured (for the `get` claims). -/
def c9State : CMState := ⟨[], true, ⟨0, 0, 0, 0⟩, []⟩

/-- Limiter `max=3, window=60000` whose window for "k" started at 0
(`resetTime = 60000`) and already counted 3 requests. -/
def c5Limiter : RateLimiter := ⟨3, 60000, [("k", ⟨3, 60000⟩)]⟩

/-- Limiter `max=3, window=60000` whose window for "k" started at -10000
in ms terms (`resetTime = 50000`) and already counted 3 requests. -/
def c5Limiter2 : RateLimiter := ⟨3, 60000, [("k", ⟨3, 50000⟩)]⟩

/-- The breaker state after 5 consecutive failed calls at t = 1..5 from a
fresh breaker. -/
def c4Chain5 : Breaker :=
  ((((((Breaker.fresh 0).execute 1 (.error ())).breaker.execute 2
      (.error ())).breaker.execute 3 (.error ())).breaker.execute 4
      (.error ())).breaker.execute 5 (.error ())).breaker

/-- The trial call at t = 60005, after the 60000 ms timeout has elapsed. -/
def c4Out6 : ExecOut := c4Chain5.execute 60005 (.ok ())

/-- The breaker after the second consecutive successful call at t = 60006. -/
def c4Chain7 : Breaker := (c4Out6.breaker.execute 60006 (.ok ())).breaker

/-! ## Theorems -/

/-- C1 counterexample: a breaker in `HALF_OPEN` with `failureCount = 5`
(the value it reaches right after opening and cooling down) fails its trial
call at t = 100000.  It does transition to `OPEN` with
`nextAttemptAt = now + timeout`, but `failureCount` becomes 6: it is not
reset, contradicting the claim. -/
theorem c1_counterexample :
    (c1Breaker.execute 100000 (.error ())).breaker.state = .OPEN ∧
    (c1Breaker.execute 100000 (.error ())).breaker.nextAttempt = 100000 + 60000 ∧
    ¬ (c1Breaker.execute 100000 (.error ())).breaker.failureCount = 0 := by
  decide

/-- C1 (amended): every failed `execute` in `HALF_OPEN` transitions the
breaker to `OPEN` with `nextAttemptAt = now + timeout`, and `failureCount`
is incremented (it is reset only on the transition to `CLOSED`), not reset. -/
theorem c1_half_open_failure (b : Breaker) (now : Nat)
    (h : b.state = .HALF_OPEN) :
    (b.execute now (.error ())).breaker.state = .OPEN ∧
    (b.execute now (.error ())).breaker.nextAttempt = now + b.timeout ∧
    (b.execute now (.error ())).breaker.failureCount = b.failureCount + 1 := by
  simp [Breaker.execute, Breaker.attemptCall, Breaker.onFailure,
        Breaker.toOpen, h]

/-- C1 witness: the amended theorem applied to `c1Breaker` at t = 100000. -/
theorem c1_witness :
    (c1Breaker.execute 100000 (.error ())).breaker.failureCount =
      c1Breaker.failureCount + 1 :=
  (c1_half_open_failure c1Breaker 100000 rfl).2.2

/-- C3: with the breaker `OPEN`, a call before `nextAttemptAt` is rejected
with code CIRCUIT_BREAKER_OPEN, increments `rejectedRequests` by one and
never invokes `fn`; a call at or past `nextAttemptAt` transitions to
`HALF_OPEN` first (the state actually passed to the call attempt is
`HALF_OPEN`) and then invokes `fn`. -/
theorem c3_open_gating (b : Breaker) (now : Nat) (fnResult : Except Unit Unit)
    (h : b.state = .OPEN) :
    (now < b.nextAttempt →
       (b.execute now fnResult).outcome = .rejected "CIRCUIT_BREAKER_OPEN" ∧
       (b.execute now fnResult).breaker.rejectedRequests =
         b.rejectedRequests + 1 ∧
       (b.execute now fnResult).fnInvoked = false) ∧
    (b.nextAttempt ≤ now →
       (b.execute now fnResult).fnInvoked = true ∧
       b.execute now fnResult =
         (Breaker.toHalfOpen
           { b with totalRequests := b.totalRequests + 1 } now).attemptCall
           now fnResult ∧
       (Breaker.toHalfOpen
           { b with totalRequests := b.totalRequests + 1 } now).state =
         .HALF_OPEN) := by
  constructor
  · intro hlt
    simp [Breaker.execute, h, hlt]
  · intro hge
    have hn : ¬ now < b.nextAttempt := not_lt.mpr hge
    refine ⟨?_, ?_, rfl⟩
    · cases fnResult <;> simp [Breaker.execute, Breaker.attemptCall, h, hn]
    · simp [Breaker.execute, h, hn]

/-- C3 witness: `c3Breaker` rejects at t = 10 without invoking `fn` and
invokes `fn` at t = 60000 (past `nextAttemptAt = 50000`). -/
theorem c3_witness :
    (c3Breaker.execute 10 (.ok ())).fnInvoked = false ∧
    (c3Breaker.execute 60000 (.ok ())).fnInvoked = true :=
  ⟨((c3_open_gating c3Breaker 10 (.ok ()) rfl).1 (by decide)).2.2,
   ((c3_open_gating c3Breaker 60000 (.ok ()) rfl).2 (by decide)).1⟩

/-- C6: `determineRenderStrategy` agrees with the spec's priority table
(seckill → csr/no-cache/0; hot+low → streaming/30; hot → ssr/60;
default → ssr/300) on strategy, cache flag and ttl, for every signal. -/
theorem c6_strategy_table (s : Signal) :
    ((determineRenderStrategy s).renderStrategy,
     (determineRenderStrategy s).cacheStrategy.enabled,
     (determineRenderStrategy s).cacheStrategy.ttl) = specStrategyTable s := by
  rcases s with ⟨id, sk, hot, lvl⟩
  cases sk <;> cases hot <;>
    by_cases h : lvl = "low" <;>
      simp [determineRenderStrategy, specStrategyTable, h]

/-- C7: a seckill signal never gets an enabled cache policy (enabled = false,
ttl = 0), and the degraded fallback path treats identifiers starting with
"SK" the same way. -/
theorem c7_seckill_never_cached :
    (∀ s : Signal, s.isSeckill = true →
       (determineRenderStrategy s).cacheStrategy.enabled = false ∧
       (determineRenderStrategy s).cacheStrategy.ttl = 0) ∧
    (∀ itemId : String, jsStartsWith itemId "SK" = true →
       (getFallbackStrategy itemId).cacheStrategy.enabled = false ∧
       (getFallbackStrategy itemId).cacheStrategy.ttl = 0) := by
  constructor
  · intro s h
    simp [determineRenderStrategy, h]
  · intro itemId h
    simp [getFallbackStrategy, h]

/-- C7 witness: both parts at the seckill identifier "SK001". -/
theorem c7_witness :
    (determineRenderStrategy ⟨"SK001", true, false, "high"⟩).cacheStrategy.enabled
      = false ∧
    (getFallbackStrategy "SK001").cacheStrategy.enabled = false :=
  ⟨(c7_seckill_never_cached.1 ⟨"SK001", true, false, "high"⟩ rfl).1,
   (c7_seckill_never_cached.2 "SK001" (by decide)).1⟩

/-- C8: the decision path never throws.  When the circuit is open (and not
yet cooled down) the endpoint returns exactly the fallback decision; when
there is no cached decision and the upstream call fails it also returns the
fallback decision; the fallback decision is total in the identifier, is
tagged `fallback = true`, and is derived only from the identifier's shape
(prefix "SK" selects the seckill branch). -/
theorem c8_never_throws (cb : PCBreaker) (itemId : String) (now : Nat)
    (cacheRes : Except String (Option Decision))
    (apiRes : Except String Signal) (setRes : Except String Unit) :
    (cb.state = .OPEN → now - cb.lastFailureTime ≤ 30000 →
       precheckItemEnhanced cb itemId now cacheRes apiRes setRes =
         (cb, getFallbackStrategy itemId)) ∧
    (∀ e, cacheRes = .ok none → apiRes = .error e →
       (precheckItemEnhanced cb itemId now cacheRes apiRes setRes).2 =
         getFallbackStrategy itemId) ∧
    (getFallbackStrategy itemId).metadata.fallback = true ∧
    (getFallbackStrategy itemId).renderStrategy =
      (if jsStartsWith itemId "SK" then .csr else .ssr) := by
  refine ⟨?_, ?_, ?_, ?_⟩
  · intro h1 h2
    have hn : ¬ now - cb.lastFailureTime > 30000 := not_lt.mpr h2
    simp [precheckItemEnhanced, h1, hn]
  · intro e hc ha
    subst hc; subst ha
    by_cases h1 : cb.state = .OPEN ∧ ¬ now - cb.lastFailureTime > 30000
    · simp [precheckItemEnhanced, h1]
    · simp only [precheckItemEnhanced, if_neg h1]
      rfl
  · unfold getFallbackStrategy
    split <;> rfl
  · by_cases h : jsStartsWith itemId "SK" <;> simp [getFallbackStrategy, h]

/-- C8 witness: with the breaker open since t = 1000 and queried at
t = 2000 the endpoint returns the fallback decision unchanged. -/
theorem c8_witness :
    precheckItemEnhanced ⟨5, 1000, .OPEN⟩ "SK9" 2000 (.ok none)
        (.error "upstream down") (.ok ()) =
      (⟨5, 1000, .OPEN⟩, getFallbackStrategy "SK9") :=
  (c8_never_throws ⟨5, 1000, .OPEN⟩ "SK9" 2000 (.ok none)
      (.error "upstream down") (.ok ())).1 rfl (by decide)

/-- C2 counterexample: with Redis configured, run the same `set` twice from
a fresh manager, once with the L2 write failing (connection refused) and once
with it succeeding.  `getStats()` returns identical reports: the stats carry
no "L2 unavailable" counter, so the degraded condition is not observable via
the coordinator's stats (only via the error log). -/
theorem c2_counterexample :
    cmGetStats (cmSet c2Init 0 "k" "v" 300 (.error "ECONNREFUSED")) =
      cmGetStats (cmSet c2Init 0 "k" "v" 300 (.ok ())) := by
  decide

/-- C2 (amended): `set` never fails because of L2: the L1 write always
happens (the entry is stored with the requested ttl), the stats delta is the
same whether the L2 write failed or succeeded (just `sets + 1`), and an L2
write error is only appended to the error log — there is no
"L2 unavailable" counter in the coordinator's stats. -/
theorem c2_set_l1_resilient (st : CMState) (now : Nat) (k v : String)
    (ttl : Nat) (e : String) :
    l1Find (cmSet st now k v ttl (.error e)).l1 k = some ⟨k, v, now, ttl * 1000⟩ ∧
    (cmSet st now k v ttl (.error e)).stats =
      { st.stats with sets := st.stats.sets + 1 } ∧
    (cmSet st now k v ttl (.error e)).stats =
      (cmSet st now k v ttl (.ok ())).stats ∧
    (st.redisConfigured = true →
       (cmSet st now k v ttl (.error e)).errorLog =
         st.errorLog ++ ["Redis write failed: " ++ e]) := by
  unfold cmSet
  by_cases h : st.redisConfigured <;>
    simp [h, l1Find, l1Set, List.find?_cons_of_pos]

/-- C2 witness: the amended theorem at a fresh manager with a failing L2. -/
theorem c2_witness :
    l1Find (cmSet c2Init 0 "k" "v" 300 (.error "boom")).l1 "k" =
      some ⟨"k", "v", 0, 300000⟩ ∧
    (cmSet c2Init 0 "k" "v" 300 (.error "boom")).errorLog =
      ["Redis write failed: boom"] := by
  have h := c2_set_l1_resilient c2Init 0 "k" "v" 300 "boom"
  exact ⟨h.1, by simpa using h.2.2.2 rfl⟩

/-- C5 counterexample: limiter with `max = 3`, `window = 60000`; the window
for "k" started at 0 (`resetTime = 60000`) with `count = 3`.  Under the
claim's half-open convention `[0, 60000)` the window has expired at
`now = 60000` and the call should start a new window and be allowed with
`remaining = max - 1 = 2`; the code treats the window as current
(expiry requires `now > resetTime`) and rejects the call. -/
theorem c5_counterexample :
    ¬ (60000 < 0 + 60000) ∧
    (c5Limiter.check "k" 60000).2.allowed = false ∧
    (c5Limiter.check "k" 60000).2.retryAfter = some 0 := by
  decide

/-- C5 (amended): the window is the closed interval
`[windowStart, windowStart + windowSize]`: a record expires only when
`now > resetTime`.  With that convention: no record or an expired record
starts a new window with `count = 1`, allowed, `remaining = max - 1`; a
current record with `count < max` increments and allows with
`remaining = max - count` (post-increment); a current record with
`count ≥ max` rejects with `remaining = 0` and
`retryAfterSeconds = ceil((resetTime - now)/1000)`, which is at most the
window size in seconds (rounded up) whenever `resetTime ≤ now + window`
(true of every record the limiter itself created). -/
theorem c5_check_cases (rl : RateLimiter) (k : String) (now : Nat) :
    (rlFind rl.store k = none →
       (rl.check k now).2 = ⟨true, (rl.max : Int) - 1, none⟩ ∧
       rlFind (rl.check k now).1.store k = some (k, ⟨1, now + rl.window⟩)) ∧
    (∀ k' c rt, rlFind rl.store k = some (k', ⟨c, rt⟩) →
      (now > rt →
         (rl.check k now).2 = ⟨true, (rl.max : Int) - 1, none⟩ ∧
         rlFind (rl.check k now).1.store k = some (k, ⟨1, now + rl.window⟩)) ∧
      (now ≤ rt → c ≥ rl.max →
         (rl.check k now).2 = ⟨false, 0, some ((rt - now + 999) / 1000)⟩ ∧
         (rl.check k now).1 = rl ∧
         (rt ≤ now + rl.window →
            (rt - now + 999) / 1000 ≤ (rl.window + 999) / 1000)) ∧
      (now ≤ rt → c < rl.max →
         (rl.check k now).2 = ⟨true, (rl.max : Int) - ((c + 1 : Nat) : Int), none⟩ ∧
         rlFind (rl.check k now).1.store k = some (k, ⟨c + 1, rt⟩))) := by
  constructor
  · intro hfind
    simp only [RateLimiter.check, hfind]
    constructor
    · simp
    · simp [rlFind, rlStoreSet, List.find?_cons_of_pos]
  · intro k' c rt hfind
    refine ⟨?_, ?_, ?_⟩
    · intro hgt
      simp only [RateLimiter.check, hfind]
      rw [if_pos hgt]
      constructor
      · simp
      · simp [rlFind, rlStoreSet, List.find?_cons_of_pos]
    · intro hle hge
      have hngt : ¬ now > rt := not_lt.mpr hle
      simp only [RateLimiter.check, hfind]
      rw [if_neg hngt, if_pos hge]
      refine ⟨rfl, rfl, ?_⟩
      intro hbound
      have h1 : rt - now + 999 ≤ rl.window + 999 := by omega
      exact Nat.div_le_div_right h1
    · intro hle hlt
      have hngt : ¬ now > rt := not_lt.mpr hle
      have hnge : ¬ c ≥ rl.max := not_le.mpr hlt
      simp only [RateLimiter.check, hfind]
      rw [if_neg hngt, if_neg hnge]
      constructor
      · simp
      · simp [rlFind, rlStoreSet, List.find?_cons_of_pos]

/-- C5 witness: the amended theorem at concrete states: a full current
window (3 of 3 used, `resetTime = 50000`) rejects the call at t = 10000
with `retryAfter = 40`; at t = 60001 the window has expired and the call
is allowed again. -/
theorem c5_witness :
    (c5Limiter2.check "k" 10000).2.allowed = false ∧
    (c5Limiter2.check "k" 10000).2.retryAfter = some 40 ∧
    (c5Limiter2.check "k" 60001).2.allowed = true := by
  have h1 := ((c5_check_cases c5Limiter2 "k" 10000).2 "k" 3 50000 rfl).2.1
    (by decide) (by decide)
  have h2 := ((c5_check_cases c5Limiter2 "k" 60001).2 "k" 3 50000 rfl).1
    (by decide)
  refine ⟨?_, ?_, ?_⟩
  · rw [h1.1]
  · rw [h1.1]
  · rw [h2.1]

/-- C9: `get` checks L1 first; on an L1 miss it consults L2; an L2 hit
(a truthy Redis value, with Redis configured) is returned and backfilled
into L1 with the default ttl; otherwise the call returns null.  Exactly one
of the counters `l1Hits`, `l2Hits`, `misses` is incremented per call, the
one matching the case that occurred. -/
theorem c9_get_tiered (st : CMState) (now : Nat) (k : String)
    (l2Res : Except String (Option String)) :
    ((cmGet st now k l2Res).1.stats.l1Hits +
       (cmGet st now k l2Res).1.stats.l2Hits +
       (cmGet st now k l2Res).1.stats.misses =
     st.stats.l1Hits + st.stats.l2Hits + st.stats.misses + 1) ∧
    (jsTruthy (l1Get st.l1 now k).1 = true →
       (cmGet st now k l2Res).2 = (l1Get st.l1 now k).1 ∧
       (cmGet st now k l2Res).1.stats =
         { st.stats with l1Hits := st.stats.l1Hits + 1 }) ∧
    (jsTruthy (l1Get st.l1 now k).1 = false → st.redisConfigured = true →
       ∀ s, l2Truthy l2Res = some s →
       (cmGet st now k l2Res).2 = some s ∧
       (cmGet st now k l2Res).1.stats =
         { st.stats with l2Hits := st.stats.l2Hits + 1 } ∧
       l1Find (cmGet st now k l2Res).1.l1 k = some ⟨k, s, now, l1DefaultTtlMs⟩) ∧
    (jsTruthy (l1Get st.l1 now k).1 = false →
       (st.redisConfigured = false ∨ l2Truthy l2Res = none) →
       (cmGet st now k l2Res).2 = none ∧
       (cmGet st now k l2Res).1.stats =
         { st.stats with misses := st.stats.misses + 1 }) := by
  rcases hget : l1Get st.l1 now k with ⟨mv, l1a⟩
  by_cases hmv : jsTruthy mv
  · refine ⟨?_, ?_, ?_, ?_⟩
    · simp only [cmGet, hget]
      simp [hmv]
      omega
    · intro _
      simp only [cmGet, hget]
      simp [hmv, hget]
    · intro htr
      exact absurd (by simpa using htr) (by simp [hmv])
    · intro htr
      exact absurd (by simpa using htr) (by simp [hmv])
  · have hform : (cmGet st now k l2Res).1.stats =
        { st.stats with misses := st.stats.misses + 1 } ∨
        ((cmGet st now k l2Res).1.stats =
          { st.stats with l2Hits := st.stats.l2Hits + 1 }) := by
      simp only [cmGet, hget]
      by_cases hr : st.redisConfigured
      · rcases l2Res with e | ov
        · simp [hmv, hr]
        · rcases ov with _ | s
          · simp [hmv, hr]
          · by_cases hs : s = "" <;> simp [hmv, hr, hs]
      · simp [hmv, hr]
    refine ⟨?_, ?_, ?_, ?_⟩
    · rcases hform with h | h <;> rw [h] <;> simp <;> omega
    · intro htr
      exact absurd (by simpa using htr) hmv
    · intro _ hr s hs
      have : l2Res = .ok (some s) ∧ ¬ s = "" := by
        rcases l2Res with e | ov
        · simp [l2Truthy] at hs
        · rcases ov with _ | t
          · simp [l2Truthy] at hs
          · by_cases ht : t = "" <;> simp [l2Truthy, ht] at hs <;>
              simp_all [l2Truthy]
      rcases this with ⟨heq, hne⟩
      subst heq
      simp only [cmGet, hget]
      simp [hmv, hr, hne, l1Find, l1Set, List.find?_cons_of_pos]
    · intro _ hcase
      simp only [cmGet, hget]
      rcases hcase with hr | hnone
      · simp [hmv, hr]
      · by_cases hr : st.redisConfigured
        · rcases l2Res with e | ov
          · simp [hmv, hr]
          · rcases ov with _ | s
            · simp [hmv, hr]
            · by_cases hs : s = "" <;> simp [l2Truthy, hs] at hnone <;>
                simp [hmv, hr, hs]
        · simp [hmv, hr]

/-- C9 witness: from a fresh manager, an L1 miss with Redis holding "html"
returns the value, counts an L2 hit, and backfills L1. -/
theorem c9_witness :
    (cmGet c9State 0 "k" (.ok (some "html"))).2 = some "html" ∧
    l1Find (cmGet c9State 0 "k" (.ok (some "html"))).1.l1 "k" =
      some ⟨"k", "html", 0, l1DefaultTtlMs⟩ := by
  have h := (c9_get_tiered c9State 0 "k" (.ok (some "html"))).2.2.1
    rfl rfl "html" (by decide)
  exact ⟨h.1, h.2.2⟩

/-- C10: a falsy stored value is indistinguishable from absence: after
`set(key, "", ttl)` the L1 physically holds the (unexpired) empty-string
entry and the raw L1 lookup returns it, yet `get` skips it, returns null,
and counts a miss (not an L1 hit) even when L2 also replies with the empty
string. -/
theorem c10_falsy_absent (st : CMState) (now : Nat) (k : String)
    (l2set : Except String Unit) :
    l1Find (cmSet st now k "" 300 l2set).l1 k = some ⟨k, "", now, 300000⟩ ∧
    (l1Get (cmSet st now k "" 300 l2set).l1 now k).1 = some "" ∧
    (cmGet (cmSet st now k "" 300 l2set) now k (.ok (some ""))).2 = none ∧
    (cmGet (cmSet st now k "" 300 l2set) now k (.ok (some ""))).1.stats.misses =
      (cmSet st now k "" 300 l2set).stats.misses + 1 ∧
    (cmGet (cmSet st now k "" 300 l2set) now k (.ok (some ""))).1.stats.l1Hits =
      (cmSet st now k "" 300 l2set).stats.l1Hits := by
  have hfind : l1Find (cmSet st now k "" 300 l2set).l1 k =
      some ⟨k, "", now, 300000⟩ := by
    unfold cmSet
    by_cases h : st.redisConfigured <;>
      · rcases l2set with e | u <;>
          simp [h, l1Find, l1Set, List.find?_cons_of_pos]
  have hl1get : l1Get (cmSet st now k "" 300 l2set).l1 now k =
      (some "", l1Set (cmSet st now k "" 300 l2set).l1 k "" now 300000) := by
    simp only [l1Get, hfind]
    simp [L1Entry.live, Nat.le_add_right]
  refine ⟨hfind, by rw [hl1get], ?_, ?_, ?_⟩ <;>
    · simp only [cmGet, hl1get]
      by_cases h : (cmSet st now k "" 300 l2set).redisConfigured <;>
        simp [h, jsTruthy]

set_option maxHeartbeats 2000000 in
/-- C4: with `failureThreshold = 5` and `successThreshold = 2`, starting
from `CLOSED` with a clean failure count: after 4 consecutive failed calls
the breaker is still `CLOSED`; the 5th failure opens it with
`nextAttemptAt = t5 + timeout`; once the timeout has elapsed the next call
invokes `fn` as a `HALF_OPEN` trial; a second consecutive success closes
the breaker again. -/
theorem c4_breaker_lifecycle (b : Breaker) (t1 t2 t3 t4 t5 t6 t7 : Nat)
    (b1 b2 b3 b4 b5 : Breaker) (out6 : ExecOut) (b7 : Breaker)
    (hstate : b.state = .CLOSED) (hfc : b.failureCount = 0)
    (hft : b.failureThreshold = 5) (hst : b.successThreshold = 2)
    (hb1 : b1 = (b.execute t1 (.error ())).breaker)
    (hb2 : b2 = (b1.execute t2 (.error ())).breaker)
    (hb3 : b3 = (b2.execute t3 (.error ())).breaker)
    (hb4 : b4 = (b3.execute t4 (.error ())).breaker)
    (hb5 : b5 = (b4.execute t5 (.error ())).breaker)
    (hout6 : out6 = b5.execute t6 (.ok ()))
    (hb7 : b7 = (out6.breaker.execute t7 (.ok ())).breaker)
    (h6 : t5 + b.timeout ≤ t6) :
    b4.state = .CLOSED ∧
    b5.state = .OPEN ∧
    b5.nextAttempt = t5 + b.timeout ∧
    out6.fnInvoked = true ∧
    out6.breaker.state = .HALF_OPEN ∧
    b7.state = .CLOSED := by
  subst hb1 hb2 hb3 hb4 hb5 hout6 hb7
  have hn6 : ¬ t6 < t5 + b.timeout := not_lt.mpr h6
  simp [Breaker.execute, Breaker.attemptCall, Breaker.onFailure,
        Breaker.onSuccess, Breaker.toOpen, Breaker.toHalfOpen,
        Breaker.toClosed, hstate, hfc, hft, hst, hn6]

/-- C4 witness: the concrete chain from a fresh breaker: failures at
t = 1..5, trial success at t = 60005 (past `nextAttemptAt = 5 + 60000`),
second success at t = 60006. -/
theorem c4_witness :
    c4Chain5.state = .OPEN ∧
    c4Out6.fnInvoked = true ∧
    c4Out6.breaker.state = .HALF_OPEN ∧
    c4Chain7.state = .CLOSED := by
  have h := c4_breaker_lifecycle (Breaker.fresh 0) 1 2 3 4 5 60005 60006
    _ _ _ _ _ _ _ rfl rfl rfl rfl rfl rfl rfl rfl rfl rfl rfl (by decide)
  exact ⟨h.2.1, h.2.2.2.1, h.2.2.2.2.1, h.2.2.2.2.2⟩

end SSRItem
